import Mathlib

/-!
Shallow embedding of the endless-runner simulation core of
`client/src/components/GameCanvas.tsx`.

The per-frame game loop (`loop`) mutates a single state record
(`stateRef.current`).  Each block of the loop body is translated below as a
pure function on a `GameSt` record, and one simulation tick is the
composition of those functions in source order.  Rendering-only state
(particles, canvas sizes) and drawing code are outside the simulation core
and are not modelled; `Math.random()` draws used by the spawner are
abstracted as an explicit per-tick oracle (`SpawnChoice`).  JavaScript
numbers are modelled as rationals.
-/

namespace RunnerGame

/-- LANE_COUNT = 3 -/
def LANE_COUNT : Nat := 3

/-- GRAVITY = 0.6 -/
def GRAVITY : ℚ := 3 / 5

/-- JUMP_FORCE = -15 -/
def JUMP_FORCE : ℚ := -15

/-- SPEED_INITIAL = 12 -/
def SPEED_INITIAL : ℚ := 12

/-- SPEED_INCREMENT = 0.005 -/
def SPEED_INCREMENT : ℚ := 1 / 200

/-- interface Player: lane 0..2, y (0 = ground, negative = airborne), vy,
isJumping, stumbleCooldown.  The lane is a natural number: the source only
ever decrements it under a `lane > 0` guard, so it never goes negative. -/
structure Player where
  lane : Nat
  y : ℚ
  vy : ℚ
  isJumping : Bool
  stumbleCooldown : Nat
deriving DecidableEq

/-- Obstacle type: 'barrier' (low, jumpable) or 'train' (tall). -/
inductive ObstacleType where
  | barrier
  | train
deriving DecidableEq

/-- interface Obstacle: lane, z depth, type, passed flag. -/
structure Obstacle where
  lane : Nat
  z : ℚ
  type : ObstacleType
  passed : Bool
deriving DecidableEq

/-- interface Coin: lane, z depth, active flag (true = not yet collected),
spin angle. -/
structure Coin where
  lane : Nat
  z : ℚ
  active : Bool
  angle : ℚ
deriving DecidableEq

/-- type GameState = 'start' | 'playing' | 'gameover' (React state driving
which branches of the loop run). -/
inductive GamePhase where
  | start
  | playing
  | gameover
deriving DecidableEq

/-- The fields of `stateRef.current`, plus the React `gameState` phase.
The `particles` array (sparkle/visual effects only, never read by the
simulation) is presentation-layer state and is not modelled. -/
structure GameSt where
  speed : ℚ
  distance : ℚ
  score : ℤ
  coins : Nat
  player : Player
  policeDistance : ℚ
  obstacles : List Obstacle
  items : List Coin
  lastSpawnZ : ℚ
  gameOver : Bool
  phase : GamePhase
deriving DecidableEq

/-- `resetGame` (lines 118-134), with `gameState = 'start'`. -/
def resetState : GameSt :=
  { speed := SPEED_INITIAL
    distance := 0
    score := 0
    coins := 0
    player := { lane := 1, y := 0, vy := 0, isJumping := false, stumbleCooldown := 0 }
    policeDistance := 100
    obstacles := []
    items := []
    lastSpawnZ := 0
    gameOver := false
    phase := GamePhase.start }

/-- Pressing the start button: `setGameState('playing')`. -/
def startGame (s : GameSt) : GameSt :=
  { s with phase := GamePhase.playing }

/-- The discrete inputs of `handleKeyDown`: ArrowLeft/a, ArrowRight/d,
ArrowUp/w/space. -/
inductive InputKey where
  | left
  | right
  | jump
deriving DecidableEq

/-- `handleKeyDown` (lines 72-94): ignored unless `gameState === 'playing'`;
left/right move one lane inside the bounds, jump only when not already
airborne. -/
def handleKeyDown (k : InputKey) (s : GameSt) : GameSt :=
  if s.phase ≠ GamePhase.playing then s
  else
    match k with
    | InputKey.left =>
        if s.player.lane > 0 then
          { s with player := { s.player with lane := s.player.lane - 1 } }
        else s
    | InputKey.right =>
        if s.player.lane < LANE_COUNT - 1 then
          { s with player := { s.player with lane := s.player.lane + 1 } }
        else s
    | InputKey.jump =>
        if !s.player.isJumping then
          { s with player := { s.player with vy := JUMP_FORCE, isJumping := true } }
        else s

/-- Lines 169-171: `speed += SPEED_INCREMENT; distance += speed;
score = Math.floor(distance / 10)`.  The distance update reads the already
incremented speed. -/
def difficultyStep (s : GameSt) : GameSt :=
  { s with
    speed := s.speed + SPEED_INCREMENT
    distance := s.distance + (s.speed + SPEED_INCREMENT)
    score := ⌊(s.distance + (s.speed + SPEED_INCREMENT)) / 10⌋ }

/-- Lines 176-183: if jumping, `y += vy` and then `vy += GRAVITY` (the
position update reads the pre-update velocity); afterwards, if the updated
`y` is ≥ 0, it is clamped to 0 and the jump flag cleared (the updated `vy`
is kept in both cases). -/
def physicsStep (s : GameSt) : GameSt :=
  if s.player.isJumping then
    if s.player.y + s.player.vy ≥ 0 then
      { s with player := { s.player with
          y := 0, vy := s.player.vy + GRAVITY, isJumping := false } }
    else
      { s with player := { s.player with
          y := s.player.y + s.player.vy, vy := s.player.vy + GRAVITY } }
  else s

/-- The pursuit meter after the passive recovery of line 186:
`if (policeDistance < 100) policeDistance += 0.2`. -/
def recoveredPD (s : GameSt) : ℚ :=
  if s.policeDistance < 100 then s.policeDistance + 1 / 5 else s.policeDistance

/-- Lines 186-190: passive recovery, then the terminal check
`if (policeDistance <= 0) { gameOver = true; setGameState('gameover') }`.
The rest of the tick body still runs after the flag is set. -/
def policeStep (s : GameSt) : GameSt :=
  if recoveredPD s ≤ 0 then
    { s with policeDistance := recoveredPD s, gameOver := true, phase := GamePhase.gameover }
  else
    { s with policeDistance := recoveredPD s }

/-- Oracle for the two `Math.random()` draws of the spawner:
`Math.floor(Math.random()*3)` always lands in {0,1,2} and is modelled as a
`Fin 3`; `Math.random() > 0.7` selects a train and is modelled as a Bool. -/
structure SpawnChoice where
  lane : Fin 3
  train : Bool
deriving DecidableEq

/-- Lines 193-209: when `distance - lastSpawnZ > 800`, record the spawn
distance, push one obstacle at z = 2000 in the drawn lane, and push three
coins at z = 2000/2150/2300 in lane `(lane + 1) % 3`. -/
def spawnStep (env : SpawnChoice) (s : GameSt) : GameSt :=
  if s.distance - s.lastSpawnZ > 800 then
    { s with
      lastSpawnZ := s.distance
      obstacles := s.obstacles ++
        [{ lane := (env.lane : Nat), z := 2000
           type := if env.train then ObstacleType.train else ObstacleType.barrier
           passed := false }]
      items := s.items ++
        [{ lane := ((env.lane : Nat) + 1) % 3, z := 2000, active := true, angle := 0 },
         { lane := ((env.lane : Nat) + 1) % 3, z := 2150, active := true, angle := 0 },
         { lane := ((env.lane : Nat) + 1) % 3, z := 2300, active := true, angle := 0 }] }
  else s

/-- Lines 212-216: every obstacle and coin advances toward the camera by
`speed`; coin spin angles advance by 0.1. -/
def advanceStep (s : GameSt) : GameSt :=
  { s with
    obstacles := s.obstacles.map (fun o => { o with z := o.z - s.speed })
    items := s.items.map (fun c => { c with z := c.z - s.speed, angle := c.angle + 1 / 10 }) }

/-- Lines 219-220: entities behind the camera (z ≤ -200) are dropped. -/
def cleanupStep (s : GameSt) : GameSt :=
  { s with
    obstacles := s.obstacles.filter (fun o => decide (o.z > -200))
    items := s.items.filter (fun c => decide (c.z > -200)) }

/-- The obstacle near-band of line 227: `o.z < 250 && o.z > 50`. -/
def obstacleNearBand (z : ℚ) : Bool :=
  decide (z < 250) && decide (z > 50)

/-- The coin near-band of line 244: `c.z < 150 && c.z > 50`. -/
def coinNearBand (z : ℚ) : Bool :=
  decide (z < 150) && decide (z > 50)

/-- One iteration of the obstacle collision forEach (lines 226-241), acting
on the accumulator (obstacles processed so far, player, policeDistance).
An unresolved obstacle in the near-band and in the player's lane either is
jumped over (barrier with y < -50: no mutation at all, in particular
`passed` stays false) or crashes (passed := true, policeDistance -= 40,
stumbleCooldown := 20). -/
def collideOne (acc : List Obstacle × Player × ℚ) (o : Obstacle) :
    List Obstacle × Player × ℚ :=
  if !o.passed && obstacleNearBand o.z then
    if o.lane == acc.2.1.lane then
      if decide (acc.2.1.y < -50) && (o.type == ObstacleType.barrier) then
        (acc.1 ++ [o], acc.2.1, acc.2.2)
      else
        (acc.1 ++ [{ o with passed := true }],
         { acc.2.1 with stumbleCooldown := 20 }, acc.2.2 - 40)
    else (acc.1 ++ [o], acc.2.1, acc.2.2)
  else (acc.1 ++ [o], acc.2.1, acc.2.2)

/-- The whole obstacle collision pass (lines 226-241): a left fold of
`collideOne` over the pool, starting from the incoming player and pursuit
meter. -/
def collideStep (s : GameSt) : GameSt :=
  { s with
    obstacles := (s.obstacles.foldl collideOne ([], s.player, s.policeDistance)).1
    player := (s.obstacles.foldl collideOne ([], s.player, s.policeDistance)).2.1
    policeDistance := (s.obstacles.foldl collideOne ([], s.player, s.policeDistance)).2.2 }

/-- One iteration of the coin forEach (lines 243-261), acting on the
accumulator (coins processed so far, coin counter).  The player record is
only read in this loop, never written. -/
def collectOne (p : Player) (acc : List Coin × Nat) (c : Coin) : List Coin × Nat :=
  if c.active && coinNearBand c.z && (c.lane == p.lane) then
    if decide (p.y > -100) then (acc.1 ++ [{ c with active := false }], acc.2 + 1)
    else (acc.1 ++ [c], acc.2)
  else (acc.1 ++ [c], acc.2)

/-- The whole coin collection pass (lines 243-261).  The sparkle particles
pushed on collection are visual effects and not modelled. -/
def collectStep (s : GameSt) : GameSt :=
  { s with
    items := (s.items.foldl (collectOne s.player) ([], s.coins)).1
    coins := (s.items.foldl (collectOne s.player) ([], s.coins)).2 }

/-- One simulation tick (the state-mutating part of `loop`, lines 158-270):
an early return when `gameOver` is already set, and the whole update block
is skipped unless `gameState === 'playing'`.  Inside a playing tick the
blocks run in source order; note that once `policeStep` sets `gameOver`,
the remaining blocks of the same tick still run. -/
def tick (env : SpawnChoice) (s : GameSt) : GameSt :=
  if s.gameOver then s
  else if s.phase = GamePhase.playing then
    collectStep (collideStep (cleanupStep (advanceStep
      (spawnStep env (policeStep (physicsStep (difficultyStep s)))))))
  else s

/-- The states a run can actually be in: the reset state, and anything
produced from a reachable state by pressing start on the start screen, a
key event, or a simulation tick.  `Play Again` leads back to `resetState`
itself. -/
inductive Reachable : GameSt → Prop
  | reset : Reachable resetState
  | start : ∀ s, Reachable s → s.phase = GamePhase.start → Reachable (startGame s)
  | key : ∀ s k, Reachable s → Reachable (handleKeyDown k s)
  | step : ∀ s env, Reachable s → Reachable (tick env s)

/-- The exact condition under which one iteration of the collision forEach
crashes: unresolved, in the near-band, lane match, and not a successful
barrier jump. -/
def crashB (p : Player) (o : Obstacle) : Bool :=
  (!o.passed && obstacleNearBand o.z) && (o.lane == p.lane) &&
    !(decide (p.y < -50) && (o.type == ObstacleType.barrier))

/-- The per-obstacle effect of the collision pass: a crashing obstacle is
marked passed, every other obstacle is left untouched. -/
def resolveObstacle (p : Player) (o : Obstacle) : Obstacle :=
  if crashB p o then { o with passed := true } else o

/-- The exact condition under which one iteration of the coin forEach
collects: active, in the coin near-band, lane match, and the player not
too high (`y > -100`). -/
def collectsB (p : Player) (c : Coin) : Bool :=
  (c.active && coinNearBand c.z && (c.lane == p.lane)) && decide (p.y > -100)

/-- The per-coin effect of the collection pass. -/
def resolveCoin (p : Player) (c : Coin) : Coin :=
  if collectsB p c then { c with active := false } else c

/-- Prop form of the lane invariant: the player's lane and the lane of
every pooled obstacle and coin are in [0, LANE_COUNT-1]. -/
def lanesOK (s : GameSt) : Prop :=
  s.player.lane < LANE_COUNT ∧
  (∀ o ∈ s.obstacles, o.lane < LANE_COUNT) ∧
  (∀ c ∈ s.items, c.lane < LANE_COUNT)

/-- A fixed spawn oracle for concrete evaluations. -/
def cenv : SpawnChoice := { lane := 0, train := false }

/-- An unresolved train obstacle sitting in the player's lane ahead of the
near-band. -/
def ob1 : Obstacle := { lane := 1, z := 150, type := ObstacleType.train, passed := false }

/-- A mid-run state: pursuit meter at 20, player grounded in lane 1, a
train obstacle about to be hit this tick. -/
def crashState : GameSt :=
  { speed := 12
    distance := 0
    score := 0
    coins := 0
    player := { lane := 1, y := 0, vy := 0, isJumping := false, stumbleCooldown := 0 }
    policeDistance := 20
    obstacles := [ob1]
    items := []
    lastSpawnZ := 0
    gameOver := false
    phase := GamePhase.playing }

/-- An unresolved barrier inside the near-band, in lane 1. -/
def ob0 : Obstacle := { lane := 1, z := 100, type := ObstacleType.barrier, passed := false }

/-- A state whose player is airborne well above the clearance height
(y = -60 < -50), with an unresolved barrier in the player's lane inside
the near-band. -/
def jumpState : GameSt :=
  { crashState with
    player := { lane := 1, y := -60, vy := 0, isJumping := true, stumbleCooldown := 0 }
    policeDistance := 100
    obstacles := [ob0] }

/-- A state with the player mid-jump: y = -30, vy = -15. -/
def airborneState : GameSt :=
  { crashState with
    obstacles := []
    player := { lane := 1, y := -30, vy := -15, isJumping := true, stumbleCooldown := 0 } }

/-- A state in which the spawn condition has just fired
(distance - lastSpawnZ = 900 > 800). -/
def spawnState : GameSt :=
  { crashState with distance := 900, obstacles := [], items := [] }

/-- A terminal state: gameOver set and phase Ended. -/
def endedState : GameSt :=
  { crashState with gameOver := true, phase := GamePhase.gameover }

/-- An uncollected coin in lane 1 inside the coin near-band. -/
def coin0 : Coin := { lane := 1, z := 100, active := true, angle := 0 }

/-- A state whose player already has a stumble cooldown of 20 ticks. -/
def stumbledState : GameSt :=
  { crashState with player := { crashState.player with stumbleCooldown := 20 } }

/-! ### Field-preservation lemmas for the individual tick blocks -/

@[simp] theorem difficultyStep_player (s : GameSt) : (difficultyStep s).player = s.player := rfl

@[simp] theorem difficultyStep_police (s : GameSt) :
    (difficultyStep s).policeDistance = s.policeDistance := rfl

@[simp] theorem difficultyStep_gameOver (s : GameSt) :
    (difficultyStep s).gameOver = s.gameOver := rfl

@[simp] theorem difficultyStep_phase (s : GameSt) : (difficultyStep s).phase = s.phase := rfl

@[simp] theorem difficultyStep_obstacles (s : GameSt) :
    (difficultyStep s).obstacles = s.obstacles := rfl

@[simp] theorem difficultyStep_items (s : GameSt) : (difficultyStep s).items = s.items := rfl

@[simp] theorem physicsStep_lane (s : GameSt) : (physicsStep s).player.lane = s.player.lane := by
  unfold physicsStep
  split
  · split <;> rfl
  · rfl

@[simp] theorem physicsStep_stumble (s : GameSt) :
    (physicsStep s).player.stumbleCooldown = s.player.stumbleCooldown := by
  unfold physicsStep
  split
  · split <;> rfl
  · rfl

@[simp] theorem physicsStep_police (s : GameSt) :
    (physicsStep s).policeDistance = s.policeDistance := by
  unfold physicsStep
  split
  · split <;> rfl
  · rfl

@[simp] theorem physicsStep_gameOver (s : GameSt) : (physicsStep s).gameOver = s.gameOver := by
  unfold physicsStep
  split
  · split <;> rfl
  · rfl

@[simp] theorem physicsStep_phase (s : GameSt) : (physicsStep s).phase = s.phase := by
  unfold physicsStep
  split
  · split <;> rfl
  · rfl

@[simp] theorem physicsStep_obstacles (s : GameSt) :
    (physicsStep s).obstacles = s.obstacles := by
  unfold physicsStep
  split
  · split <;> rfl
  · rfl

@[simp] theorem physicsStep_items (s : GameSt) : (physicsStep s).items = s.items := by
  unfold physicsStep
  split
  · split <;> rfl
  · rfl

@[simp] theorem policeStep_player (s : GameSt) : (policeStep s).player = s.player := by
  unfold policeStep
  split <;> rfl

@[simp] theorem policeStep_obstacles (s : GameSt) : (policeStep s).obstacles = s.obstacles := by
  unfold policeStep
  split <;> rfl

@[simp] theorem policeStep_items (s : GameSt) : (policeStep s).items = s.items := by
  unfold policeStep
  split <;> rfl

@[simp] theorem policeStep_police (s : GameSt) :
    (policeStep s).policeDistance = recoveredPD s := by
  unfold policeStep
  split <;> rfl

@[simp] theorem spawnStep_player (env : SpawnChoice) (s : GameSt) :
    (spawnStep env s).player = s.player := by
  unfold spawnStep
  split <;> rfl

@[simp] theorem spawnStep_police (env : SpawnChoice) (s : GameSt) :
    (spawnStep env s).policeDistance = s.policeDistance := by
  unfold spawnStep
  split <;> rfl

@[simp] theorem spawnStep_gameOver (env : SpawnChoice) (s : GameSt) :
    (spawnStep env s).gameOver = s.gameOver := by
  unfold spawnStep
  split <;> rfl

@[simp] theorem spawnStep_phase (env : SpawnChoice) (s : GameSt) :
    (spawnStep env s).phase = s.phase := by
  unfold spawnStep
  split <;> rfl

@[simp] theorem advanceStep_player (s : GameSt) : (advanceStep s).player = s.player := rfl

@[simp] theorem advanceStep_police (s : GameSt) :
    (advanceStep s).policeDistance = s.policeDistance := rfl

@[simp] theorem advanceStep_gameOver (s : GameSt) : (advanceStep s).gameOver = s.gameOver := rfl

@[simp] theorem advanceStep_phase (s : GameSt) : (advanceStep s).phase = s.phase := rfl

@[simp] theorem cleanupStep_player (s : GameSt) : (cleanupStep s).player = s.player := rfl

@[simp] theorem cleanupStep_police (s : GameSt) :
    (cleanupStep s).policeDistance = s.policeDistance := rfl

@[simp] theorem cleanupStep_gameOver (s : GameSt) : (cleanupStep s).gameOver = s.gameOver := rfl

@[simp] theorem cleanupStep_phase (s : GameSt) : (cleanupStep s).phase = s.phase := rfl

/-! ### Characterization of the collision fold -/

theorem crashB_setStumble (p : Player) (n : Nat) :
    crashB { p with stumbleCooldown := n } = crashB p := rfl

theorem resolveObstacle_setStumble (p : Player) (n : Nat) :
    resolveObstacle { p with stumbleCooldown := n } = resolveObstacle p := rfl

theorem collideOne_eq (done : List Obstacle) (p : Player) (pd : ℚ) (o : Obstacle) :
    collideOne (done, p, pd) o =
      (done ++ [resolveObstacle p o],
       (if crashB p o then { p with stumbleCooldown := 20 } else p),
       (if crashB p o then pd - 40 else pd)) := by
  unfold collideOne resolveObstacle crashB
  cases h1 : (!o.passed && obstacleNearBand o.z) <;>
    cases h2 : (o.lane == p.lane) <;>
      cases h3 : (decide (p.y < -50) && (o.type == ObstacleType.barrier)) <;>
        simp [h1, h2, h3]

theorem collideFold_fst (l : List Obstacle) (done : List Obstacle) (p : Player) (pd : ℚ) :
    (l.foldl collideOne (done, p, pd)).1 = done ++ l.map (resolveObstacle p) := by
  induction l generalizing done p pd with
  | nil => simp
  | cons o t ih =>
    rw [List.foldl_cons, collideOne_eq]
    by_cases hc : crashB p o = true
    · simp only [hc, if_true]
      rw [ih]
      simp [resolveObstacle_setStumble]
    · rw [Bool.not_eq_true] at hc
      simp only [hc, Bool.false_eq_true, if_false]
      rw [ih]
      simp

theorem collideFold_player (l : List Obstacle) (done : List Obstacle) (p : Player) (pd : ℚ) :
    (l.foldl collideOne (done, p, pd)).2.1 =
      (if l.any (crashB p) then { p with stumbleCooldown := 20 } else p) := by
  induction l generalizing done p pd with
  | nil => simp
  | cons o t ih =>
    rw [List.foldl_cons, collideOne_eq]
    by_cases hc : crashB p o = true
    · simp only [hc, if_true]
      rw [ih]
      simp only [crashB_setStumble, List.any_cons, hc, Bool.true_or, if_true]
      split <;> rfl
    · rw [Bool.not_eq_true] at hc
      simp only [hc, Bool.false_eq_true, if_false]
      rw [ih]
      simp only [List.any_cons, hc, Bool.false_or]

theorem collideFold_pd (l : List Obstacle) (done : List Obstacle) (p : Player) (pd : ℚ) :
    (l.foldl collideOne (done, p, pd)).2.2 =
      pd - 40 * ((l.filter (crashB p)).length : ℚ) := by
  induction l generalizing done p pd with
  | nil => simp
  | cons o t ih =>
    rw [List.foldl_cons, collideOne_eq]
    by_cases hc : crashB p o = true
    · simp only [hc, if_true]
      rw [ih]
      simp only [crashB_setStumble, List.filter_cons, hc, if_true, List.length_cons]
      push_cast
      ring
    · rw [Bool.not_eq_true] at hc
      simp only [hc, Bool.false_eq_true, if_false]
      rw [ih]
      simp [List.filter_cons, hc]

theorem collideStep_eq (s : GameSt) :
    collideStep s =
      { s with
        obstacles := s.obstacles.map (resolveObstacle s.player)
        player := if s.obstacles.any (crashB s.player) then
            { s.player with stumbleCooldown := 20 } else s.player
        policeDistance :=
          s.policeDistance - 40 * ((s.obstacles.filter (crashB s.player)).length : ℚ) } := by
  unfold collideStep
  rw [collideFold_fst, collideFold_player, collideFold_pd]
  simp

@[simp] theorem collideStep_gameOver (s : GameSt) : (collideStep s).gameOver = s.gameOver := by
  rw [collideStep_eq]

@[simp] theorem collideStep_phase (s : GameSt) : (collideStep s).phase = s.phase := by
  rw [collideStep_eq]

@[simp] theorem collideStep_items (s : GameSt) : (collideStep s).items = s.items := by
  rw [collideStep_eq]

theorem collideStep_police (s : GameSt) :
    (collideStep s).policeDistance =
      s.policeDistance - 40 * ((s.obstacles.filter (crashB s.player)).length : ℚ) := by
  rw [collideStep_eq]

theorem collideStep_stumble (s : GameSt) :
    (collideStep s).player.stumbleCooldown = s.player.stumbleCooldown ∨
    (collideStep s).player.stumbleCooldown = 20 := by
  rw [collideStep_eq]
  dsimp only
  split
  · exact Or.inr rfl
  · exact Or.inl rfl

@[simp] theorem collideStep_lane (s : GameSt) :
    (collideStep s).player.lane = s.player.lane := by
  rw [collideStep_eq]
  dsimp only
  split <;> rfl

/-! ### Characterization of the collection fold -/

theorem collectOne_eq (p : Player) (done : List Coin) (n : Nat) (c : Coin) :
    collectOne p (done, n) c =
      (done ++ [resolveCoin p c], (if collectsB p c then n + 1 else n)) := by
  unfold collectOne resolveCoin collectsB
  cases h1 : (c.active && coinNearBand c.z && (c.lane == p.lane)) <;>
    cases h2 : (decide (p.y > -100)) <;>
      simp [h1, h2]

theorem collectFold_fst (p : Player) (l : List Coin) (done : List Coin) (n : Nat) :
    (l.foldl (collectOne p) (done, n)).1 = done ++ l.map (resolveCoin p) := by
  induction l generalizing done n with
  | nil => simp
  | cons c t ih =>
    rw [List.foldl_cons, collectOne_eq]
    by_cases hc : collectsB p c = true
    · simp only [hc, if_true]
      rw [ih]
      simp
    · rw [Bool.not_eq_true] at hc
      simp only [hc, Bool.false_eq_true, if_false]
      rw [ih]
      simp

theorem collectFold_snd (p : Player) (l : List Coin) (done : List Coin) (n : Nat) :
    (l.foldl (collectOne p) (done, n)).2 = n + (l.filter (collectsB p)).length := by
  induction l generalizing done n with
  | nil => simp
  | cons c t ih =>
    rw [List.foldl_cons, collectOne_eq]
    by_cases hc : collectsB p c = true
    · simp only [hc, if_true]
      rw [ih]
      simp only [List.filter_cons, hc, if_true, List.length_cons]
      omega
    · rw [Bool.not_eq_true] at hc
      simp only [hc, Bool.false_eq_true, if_false]
      rw [ih]
      simp [List.filter_cons, hc]

theorem collectStep_eq (s : GameSt) :
    collectStep s =
      { s with
        items := s.items.map (resolveCoin s.player)
        coins := s.coins + (s.items.filter (collectsB s.player)).length } := by
  unfold collectStep
  rw [collectFold_fst, collectFold_snd]
  simp

@[simp] theorem collectStep_player (s : GameSt) : (collectStep s).player = s.player := by
  rw [collectStep_eq]

@[simp] theorem collectStep_police (s : GameSt) :
    (collectStep s).policeDistance = s.policeDistance := by
  rw [collectStep_eq]

@[simp] theorem collectStep_gameOver (s : GameSt) : (collectStep s).gameOver = s.gameOver := by
  rw [collectStep_eq]

@[simp] theorem collectStep_phase (s : GameSt) : (collectStep s).phase = s.phase := by
  rw [collectStep_eq]

@[simp] theorem collectStep_obstacles (s : GameSt) :
    (collectStep s).obstacles = s.obstacles := by
  rw [collectStep_eq]

/-! ### Lane-preservation helpers -/

theorem resolveObstacle_lane (p : Player) (o : Obstacle) :
    (resolveObstacle p o).lane = o.lane := by
  unfold resolveObstacle
  split <;> rfl

theorem resolveCoin_lane (p : Player) (c : Coin) :
    (resolveCoin p c).lane = c.lane := by
  unfold resolveCoin
  split <;> rfl

theorem lanesOK_difficulty (s : GameSt) (h : lanesOK s) : lanesOK (difficultyStep s) := h

theorem lanesOK_physics (s : GameSt) (h : lanesOK s) : lanesOK (physicsStep s) := by
  unfold lanesOK at h ⊢
  simp only [physicsStep_lane, physicsStep_obstacles, physicsStep_items]
  exact h

theorem lanesOK_police (s : GameSt) (h : lanesOK s) : lanesOK (policeStep s) := by
  unfold lanesOK at h ⊢
  simp only [policeStep_player, policeStep_obstacles, policeStep_items]
  exact h

theorem lanesOK_spawn (env : SpawnChoice) (s : GameSt) (h : lanesOK s) :
    lanesOK (spawnStep env s) := by
  obtain ⟨h1, h2, h3⟩ := h
  unfold spawnStep
  split
  · refine ⟨h1, ?_, ?_⟩
    · intro o ho
      rcases List.mem_append.mp ho with ho | ho
      · exact h2 o ho
      · rw [List.mem_singleton] at ho
        subst ho
        exact env.lane.isLt
    · intro c hc
      rcases List.mem_append.mp hc with hc | hc
      · exact h3 c hc
      · simp only [List.mem_cons, List.mem_singleton, List.not_mem_nil, or_false] at hc
        rcases hc with rfl | rfl | rfl <;> exact Nat.mod_lt _ (by norm_num)
  · exact ⟨h1, h2, h3⟩

theorem lanesOK_advance (s : GameSt) (h : lanesOK s) : lanesOK (advanceStep s) := by
  obtain ⟨h1, h2, h3⟩ := h
  refine ⟨h1, ?_, ?_⟩
  · intro o ho
    obtain ⟨o0, ho0, rfl⟩ := List.mem_map.mp ho
    exact h2 o0 ho0
  · intro c hc
    obtain ⟨c0, hc0, rfl⟩ := List.mem_map.mp hc
    exact h3 c0 hc0

theorem lanesOK_cleanup (s : GameSt) (h : lanesOK s) : lanesOK (cleanupStep s) := by
  obtain ⟨h1, h2, h3⟩ := h
  refine ⟨h1, ?_, ?_⟩
  · intro o ho
    exact h2 o (List.mem_of_mem_filter ho)
  · intro c hc
    exact h3 c (List.mem_of_mem_filter hc)

theorem lanesOK_collide (s : GameSt) (h : lanesOK s) : lanesOK (collideStep s) := by
  obtain ⟨h1, h2, h3⟩ := h
  rw [collideStep_eq]
  refine ⟨?_, ?_, ?_⟩
  · dsimp only
    split <;> exact h1
  · intro o ho
    obtain ⟨o0, ho0, rfl⟩ := List.mem_map.mp ho
    rw [resolveObstacle_lane]
    exact h2 o0 ho0
  · exact h3

theorem lanesOK_collect (s : GameSt) (h : lanesOK s) : lanesOK (collectStep s) := by
  obtain ⟨h1, h2, h3⟩ := h
  rw [collectStep_eq]
  refine ⟨h1, h2, ?_⟩
  intro c hc
  obtain ⟨c0, hc0, rfl⟩ := List.mem_map.mp hc
  rw [resolveCoin_lane]
  exact h3 c0 hc0

theorem lanesOK_tick (env : SpawnChoice) (s : GameSt) (h : lanesOK s) :
    lanesOK (tick env s) := by
  unfold tick
  split
  · exact h
  split
  · exact lanesOK_collect _ (lanesOK_collide _ (lanesOK_cleanup _ (lanesOK_advance _
      (lanesOK_spawn env _ (lanesOK_police _ (lanesOK_physics _
        (lanesOK_difficulty _ h)))))))
  · exact h

theorem lanesOK_key (k : InputKey) (s : GameSt) (h : lanesOK s) :
    lanesOK (handleKeyDown k s) := by
  obtain ⟨h1, h2, h3⟩ := h
  unfold handleKeyDown
  split
  · exact ⟨h1, h2, h3⟩
  · cases k
    case left =>
      dsimp only
      split
      · exact ⟨lt_of_le_of_lt (Nat.sub_le _ _) h1, h2, h3⟩
      · exact ⟨h1, h2, h3⟩
    case right =>
      dsimp only
      split
      case isTrue hlt =>
        refine ⟨?_, h2, h3⟩
        show s.player.lane + 1 < LANE_COUNT
        unfold LANE_COUNT at hlt ⊢
        omega
      case isFalse => exact ⟨h1, h2, h3⟩
    case jump =>
      dsimp only
      split
      · exact ⟨h1, h2, h3⟩
      · exact ⟨h1, h2, h3⟩

theorem lanesOK_reset : lanesOK resetState := by
  refine ⟨?_, ?_, ?_⟩
  · norm_num [resetState, LANE_COUNT]
  · intro o ho
    simp [resetState] at ho
  · intro c hc
    simp [resetState] at hc

/-! ### Pursuit-meter helpers -/

theorem handleKeyDown_police (k : InputKey) (s : GameSt) :
    (handleKeyDown k s).policeDistance = s.policeDistance := by
  unfold handleKeyDown
  split
  · rfl
  · cases k <;> dsimp only <;> split <;> rfl

theorem recoveredPD_le (s : GameSt)
    (h1 : s.policeDistance ≤ 100) (h2 : ∃ k : ℤ, s.policeDistance = (k : ℚ) / 5) :
    recoveredPD s ≤ 100 ∧ ∃ k : ℤ, recoveredPD s = (k : ℚ) / 5 := by
  obtain ⟨k, hk⟩ := h2
  unfold recoveredPD
  split
  case isTrue hlt =>
    constructor
    · have hk5 : (k : ℚ) < 500 := by
        rw [hk] at hlt
        linarith
      have hkz : k < 500 := by exact_mod_cast hk5
      have hk1 : ((k : ℚ) + 1) ≤ 500 := by
        have : (k : ℚ) + 1 ≤ 500 ↔ k + 1 ≤ 500 := by
          constructor
          · intro hq
            exact_mod_cast hq
          · intro hz
            exact_mod_cast hz
        exact this.mpr (by omega)
      rw [hk]
      linarith
    · exact ⟨k + 1, by rw [hk]; push_cast; ring⟩
  case isFalse => exact ⟨h1, k, hk⟩

theorem sub_penalty_meter (x : ℚ) (m : ℕ) (hle : x ≤ 100) (k : ℤ)
    (hk : x = (k : ℚ) / 5) :
    x - 40 * (m : ℚ) ≤ 100 ∧ ∃ j : ℤ, x - 40 * (m : ℚ) = (j : ℚ) / 5 := by
  constructor
  · have h0 : (0 : ℚ) ≤ (m : ℚ) := Nat.cast_nonneg m
    linarith
  · refine ⟨k - 200 * (m : ℤ), ?_⟩
    rw [hk]
    push_cast
    ring

theorem recoveredPD_congr (s t : GameSt) (h : s.policeDistance = t.policeDistance) :
    recoveredPD s = recoveredPD t := by
  unfold recoveredPD
  rw [h]

theorem tick_meter (env : SpawnChoice) (s : GameSt)
    (h1 : s.policeDistance ≤ 100) (h2 : ∃ k : ℤ, s.policeDistance = (k : ℚ) / 5) :
    (tick env s).policeDistance ≤ 100 ∧
      ∃ k : ℤ, (tick env s).policeDistance = (k : ℚ) / 5 := by
  unfold tick
  split
  · exact ⟨h1, h2⟩
  split
  · rw [collectStep_police, collideStep_police]
    simp only [cleanupStep_police, advanceStep_police, spawnStep_police, policeStep_police]
    rw [recoveredPD_congr (physicsStep (difficultyStep s)) s
      (by rw [physicsStep_police, difficultyStep_police])]
    obtain ⟨hle, k, hk⟩ := recoveredPD_le s h1 h2
    exact sub_penalty_meter _ _ hle k hk
  · exact ⟨h1, h2⟩

/-! ### Claim theorems -/

/-- C6 (confirmed): an unresolved Tall (train) obstacle in the player's
lane whose depth is inside the near-band always crashes in the resolve
step — it is marked passed and the pursuit meter drops by at least the
40-point penalty — with no hypothesis at all on the player's airborne
state, so jumping can never clear a train. -/
theorem tall_always_crashes (s : GameSt) (o : Obstacle)
    (ho : o ∈ s.obstacles) (ht : o.type = ObstacleType.train) (hp : o.passed = false)
    (hz : obstacleNearBand o.z = true) (hl : o.lane = s.player.lane) :
    crashB s.player o = true ∧
    resolveObstacle s.player o = { o with passed := true } ∧
    (collideStep s).obstacles = s.obstacles.map (resolveObstacle s.player) ∧
    (collideStep s).policeDistance ≤ s.policeDistance - 40 := by
  have hcb : crashB s.player o = true := by
    unfold crashB
    simp [ht, hp, hz, hl]
  refine ⟨hcb, ?_, ?_, ?_⟩
  · unfold resolveObstacle
    rw [if_pos hcb]
  · rw [collideStep_eq]
  · rw [collideStep_police]
    have hmem : o ∈ s.obstacles.filter (crashB s.player) := List.mem_filter.mpr ⟨ho, hcb⟩
    have hlen : 0 < (s.obstacles.filter (crashB s.player)).length :=
      List.length_pos_of_mem hmem
    have hq : (1 : ℚ) ≤ ((s.obstacles.filter (crashB s.player)).length : ℚ) := by
      exact_mod_cast hlen
    linarith

/-- Witness for C6 at a concrete state: a train at depth 150 in the
player's lane. -/
theorem tall_always_crashes_w :
    crashB crashState.player ob1 = true ∧
    resolveObstacle crashState.player ob1 = { ob1 with passed := true } ∧
    (collideStep crashState).obstacles =
      crashState.obstacles.map (resolveObstacle crashState.player) ∧
    (collideStep crashState).policeDistance ≤ crashState.policeDistance - 40 :=
  tall_always_crashes crashState ob1 (by decide) rfl rfl (by decide) rfl

/-- C7 (confirmed): when the spawn condition `distance - lastSpawnZ > 800`
holds, the spawner appends exactly one obstacle at depth 2000 in the drawn
lane (unresolved) and exactly three uncollected pickups at depths
2000/2150/2300 (spacing 150) in lane (obstacle lane + 1) mod 3 — a lane
that always differs from the obstacle's — and records the spawn
distance. -/
theorem spawn_spec (env : SpawnChoice) (s : GameSt)
    (h : s.distance - s.lastSpawnZ > 800) :
    (spawnStep env s).obstacles = s.obstacles ++
      [{ lane := (env.lane : Nat), z := 2000
         type := if env.train then ObstacleType.train else ObstacleType.barrier
         passed := false }] ∧
    (spawnStep env s).items = s.items ++
      [{ lane := ((env.lane : Nat) + 1) % 3, z := 2000, active := true, angle := 0 },
       { lane := ((env.lane : Nat) + 1) % 3, z := 2150, active := true, angle := 0 },
       { lane := ((env.lane : Nat) + 1) % 3, z := 2300, active := true, angle := 0 }] ∧
    ((env.lane : Nat) + 1) % 3 ≠ (env.lane : Nat) ∧
    (spawnStep env s).lastSpawnZ = s.distance := by
  unfold spawnStep
  rw [if_pos h]
  refine ⟨rfl, rfl, ?_, rfl⟩
  have hlt : (env.lane : Nat) < 3 := env.lane.isLt
  omega

/-- Witness for C7 at a concrete state with distance 900 past the last
spawn. -/
theorem spawn_spec_w :
    (spawnStep cenv spawnState).lastSpawnZ = spawnState.distance ∧
    ((cenv.lane : Nat) + 1) % 3 ≠ (cenv.lane : Nat) :=
  ⟨(spawn_spec cenv spawnState (by norm_num [spawnState, crashState])).2.2.2,
   (spawn_spec cenv spawnState (by norm_num [spawnState, crashState])).2.2.1⟩

/-- C8 (confirmed): once the run has ended (gameOver set / phase Ended), a
tick is the identity on the whole state — score, coins, pursuit meter,
distance, speed, player and both entity pools are all unchanged until an
explicit reset. -/
theorem ended_no_mutation (env : SpawnChoice) (s : GameSt)
    (h : s.gameOver = true ∨ s.phase = GamePhase.gameover) : tick env s = s := by
  unfold tick
  rcases h with h | h
  · rw [if_pos h]
  · by_cases hg : s.gameOver = true
    · rw [if_pos hg]
    · rw [if_neg hg, if_neg (by simp [h])]

/-- Witness for C8 at a concrete terminal state. -/
theorem ended_no_mutation_w : tick cenv endedState = endedState :=
  ended_no_mutation cenv endedState (Or.inl rfl)

/-- C10 (confirmed): the simulation tick never decrements or clears the
stumble cooldown — it either leaves it unchanged or (re)sets it to 20 on a
crash; in particular once it is 20 it stays 20 for every later tick, and
only the run reset puts it back to 0. -/
theorem stumble_never_cleared (env : SpawnChoice) (s : GameSt) :
    ((tick env s).player.stumbleCooldown = s.player.stumbleCooldown ∨
      (tick env s).player.stumbleCooldown = 20) ∧
    (s.player.stumbleCooldown = 20 → (tick env s).player.stumbleCooldown = 20) ∧
    resetState.player.stumbleCooldown = 0 := by
  have key : (tick env s).player.stumbleCooldown = s.player.stumbleCooldown ∨
      (tick env s).player.stumbleCooldown = 20 := by
    unfold tick
    split
    · exact Or.inl rfl
    split
    · have hpre :
          (cleanupStep (advanceStep (spawnStep env (policeStep (physicsStep
            (difficultyStep s)))))).player.stumbleCooldown =
            s.player.stumbleCooldown := by
        simp
      rw [collectStep_player]
      rcases collideStep_stumble (cleanupStep (advanceStep (spawnStep env (policeStep
          (physicsStep (difficultyStep s)))))) with hcs | hcs
      · exact Or.inl (hcs.trans hpre)
      · exact Or.inr hcs
    · exact Or.inl rfl
  refine ⟨key, ?_, rfl⟩
  intro h20
  rcases key with hk | hk
  · rw [hk, h20]
  · exact hk

/-- Witness for C10 at a concrete state whose cooldown is already 20. -/
theorem stumble_never_cleared_w :
    (tick cenv stumbledState).player.stumbleCooldown = 20 :=
  (stumble_never_cleared cenv stumbledState).2.1 rfl

/-- C1 counterexample: from a state whose pursuit meter is 20 (inside
[0, 100]), one tick with a crash leaves the meter strictly negative — the
crash penalty is applied without any clamp at 0, refuting the claim that
the meter always stays within [0, MAX]. -/
theorem pursuit_meter_clamp_cex :
    0 ≤ crashState.policeDistance ∧ crashState.policeDistance ≤ 100 ∧
    (tick cenv crashState).policeDistance < 0 := by
  norm_num [tick, difficultyStep, physicsStep, policeStep, recoveredPD, spawnStep,
    advanceStep, cleanupStep, collideStep, collideOne, collectStep, collectOne,
    obstacleNearBand, crashState, cenv, ob1, SPEED_INCREMENT, GRAVITY]

/-- C1 (corrected): in every reachable state the pursuit meter is at most
MAX = 100, and it is always an integer multiple of the 0.2 recovery step
(so the unclamped `+= 0.2` recovery, which only fires below 100, can never
overshoot 100); the lower bound of the claim fails because the crash
penalty is unclamped (see the counterexample). -/
theorem pursuit_meter_upper_bound (s : GameSt) (h : Reachable s) :
    s.policeDistance ≤ 100 ∧ ∃ k : ℤ, s.policeDistance = (k : ℚ) / 5 := by
  induction h with
  | reset =>
      constructor
      · norm_num [resetState]
      · exact ⟨500, by norm_num [resetState]⟩
  | start s hs hp ih => exact ih
  | key s k hs ih =>
      simp only [handleKeyDown_police]
      exact ih
  | step s env hs ih => exact tick_meter env s ih.1 ih.2

/-- Witness for C1's amended theorem at the reset state. -/
theorem pursuit_meter_upper_bound_w :
    resetState.policeDistance ≤ 100 ∧ ∃ k : ℤ, resetState.policeDistance = (k : ℚ) / 5 :=
  pursuit_meter_upper_bound resetState Reachable.reset

/-- C2 counterexample: a tick in which a crash drives the pursuit meter to
-19.8 ≤ 0 ends with `gameOver` still false and the phase still Running —
the transition to Ended does not happen within the same tick, because the
terminal check runs before collision resolution. -/
theorem ended_same_tick_cex :
    (tick cenv crashState).policeDistance ≤ 0 ∧
    (tick cenv crashState).gameOver = false ∧
    (tick cenv crashState).phase = GamePhase.playing := by
  norm_num [tick, difficultyStep, physicsStep, policeStep, recoveredPD, spawnStep,
    advanceStep, cleanupStep, collideStep, collideOne, collectStep, collectOne,
    obstacleNearBand, crashState, cenv, ob1, SPEED_INCREMENT, GRAVITY]

/-- C2 (corrected): a Running tick ends the run (sets gameOver / phase
Ended) exactly when the meter is ≤ 0 after that tick's passive recovery
but before collision resolution; this meter check is the sole Ended
trigger, and a crash that depletes the meter is therefore only detected by
the next tick's check. -/
theorem ended_trigger_iff (env : SpawnChoice) (s : GameSt)
    (h1 : s.gameOver = false) (h2 : s.phase = GamePhase.playing) :
    ((tick env s).gameOver = true ↔
      recoveredPD (physicsStep (difficultyStep s)) ≤ 0) ∧
    ((tick env s).phase = GamePhase.gameover ↔
      recoveredPD (physicsStep (difficultyStep s)) ≤ 0) := by
  have hng : ¬ (s.gameOver = true) := by
    rw [h1]
    exact Bool.false_ne_true
  unfold tick
  rw [if_neg hng, if_pos h2]
  simp only [collectStep_gameOver, collideStep_gameOver, cleanupStep_gameOver,
    advanceStep_gameOver, spawnStep_gameOver, collectStep_phase, collideStep_phase,
    cleanupStep_phase, advanceStep_phase, spawnStep_phase]
  have hgo : (physicsStep (difficultyStep s)).gameOver = false := by
    rw [physicsStep_gameOver, difficultyStep_gameOver, h1]
  have hph : (physicsStep (difficultyStep s)).phase = GamePhase.playing := by
    rw [physicsStep_phase, difficultyStep_phase, h2]
  unfold policeStep
  by_cases hc : recoveredPD (physicsStep (difficultyStep s)) ≤ 0
  · rw [if_pos hc]
    simp [hc]
  · rw [if_neg hc]
    simp [hgo, hph, hc, h1, h2]

/-- Witness for C2's amended theorem at the freshly started run. -/
theorem ended_trigger_iff_w :
    ((tick cenv (startGame resetState)).gameOver = true ↔
      recoveredPD (physicsStep (difficultyStep (startGame resetState))) ≤ 0) ∧
    ((tick cenv (startGame resetState)).phase = GamePhase.gameover ↔
      recoveredPD (physicsStep (difficultyStep (startGame resetState))) ≤ 0) :=
  ended_trigger_iff cenv (startGame resetState) rfl rfl

/-- C3 counterexample: an unresolved Low (barrier) obstacle in the
player's lane inside the near-band, with the player airborne above the
clearance height (y = -60 < -50): after the resolve step the obstacle is
still unresolved (`passed = false`) and no penalty was applied — the code
never sets the resolved flag on a successful jump, refuting the claim that
a pass marks `resolved = true`. -/
theorem barrier_jump_unresolved_cex :
    jumpState.player.y < -50 ∧ ob0.type = ObstacleType.barrier ∧ ob0.passed = false ∧
    obstacleNearBand ob0.z = true ∧ ob0.lane = jumpState.player.lane ∧
    ob0 ∈ jumpState.obstacles ∧
    (collideStep jumpState).obstacles = [ob0] ∧
    (collideStep jumpState).policeDistance = jumpState.policeDistance := by
  norm_num [collideStep, collideOne, obstacleNearBand, jumpState, crashState, ob0]

/-- C3 (corrected): when the player is airborne beyond the clearance
height (y < -50) over a Low obstacle, the resolve step applies no pursuit
penalty but also does not mark the obstacle resolved — the obstacle is
left completely untouched, and the `passed` flag is only ever set by a
crash. -/
theorem barrier_jump_no_resolve (s : GameSt) (o : Obstacle)
    (hb : o.type = ObstacleType.barrier) (hy : s.player.y < -50) :
    crashB s.player o = false ∧
    resolveObstacle s.player o = o ∧
    (collideStep s).obstacles = s.obstacles.map (resolveObstacle s.player) ∧
    (collideStep s).policeDistance =
      s.policeDistance - 40 * ((s.obstacles.filter (crashB s.player)).length : ℚ) := by
  have hcb : crashB s.player o = false := by
    unfold crashB
    simp [hb, hy]
  refine ⟨hcb, ?_, ?_, ?_⟩
  · unfold resolveObstacle
    rw [if_neg (by simp [hcb])]
  · rw [collideStep_eq]
  · rw [collideStep_police]

/-- Witness for C3's amended theorem at the concrete jump state. -/
theorem barrier_jump_no_resolve_w :
    crashB jumpState.player ob0 = false ∧
    resolveObstacle jumpState.player ob0 = ob0 ∧
    (collideStep jumpState).obstacles =
      jumpState.obstacles.map (resolveObstacle jumpState.player) ∧
    (collideStep jumpState).policeDistance =
      jumpState.policeDistance -
        40 * ((jumpState.obstacles.filter (crashB jumpState.player)).length : ℚ) :=
  barrier_jump_no_resolve jumpState ob0 rfl (by norm_num [jumpState, crashState])

/-- C4 counterexample: at depth 200 the obstacle near-band (50, 250)
applies but the pickup near-band (50, 150) does not — the pickup band is
strictly smaller than the obstacle band, refuting the claim that it is the
larger, more permissive one. -/
theorem coin_band_not_larger_cex :
    obstacleNearBand 200 = true ∧ coinNearBand 200 = false := by
  constructor
  · norm_num [obstacleNearBand]
  · norm_num [coinNearBand]

/-- C4 (corrected): the pickup near-band (50, 150) is contained in (is
strictly smaller than) the obstacle near-band (50, 250); an uncollected
pickup in the player's lane inside its band, with the player not too high
(y > -100), is marked collected, and the coin counter increases each tick
by exactly the number of newly collected pickups. -/
theorem coin_collection_spec (s : GameSt) :
    (∀ z : ℚ, coinNearBand z = true → obstacleNearBand z = true) ∧
    (collectStep s).items = s.items.map (resolveCoin s.player) ∧
    (collectStep s).coins = s.coins + (s.items.filter (collectsB s.player)).length ∧
    (∀ c : Coin, collectsB s.player c = true →
      resolveCoin s.player c = { c with active := false }) := by
  refine ⟨?_, ?_, ?_, ?_⟩
  · intro z hz
    unfold coinNearBand at hz
    unfold obstacleNearBand
    rw [Bool.and_eq_true, decide_eq_true_eq, decide_eq_true_eq] at hz
    rw [Bool.and_eq_true, decide_eq_true_eq, decide_eq_true_eq]
    exact ⟨by linarith [hz.1], hz.2⟩
  · rw [collectStep_eq]
  · rw [collectStep_eq]
  · intro c hc
    unfold resolveCoin
    rw [if_pos hc]

/-- Witness for C4's amended theorem at a concrete depth and coin. -/
theorem coin_collection_spec_w :
    obstacleNearBand 100 = true ∧
    resolveCoin crashState.player coin0 = { coin0 with active := false } :=
  ⟨(coin_collection_spec crashState).1 100 (by norm_num [coinNearBand]),
   (coin_collection_spec crashState).2.2.2 coin0
     (by norm_num [collectsB, coinNearBand, crashState, coin0])⟩

/-- C5 counterexample: with the player airborne at y = -30, vy = -15, the
physics step produces y = -45 = y + vy (the pre-update velocity), not
y + (vy + GRAVITY) = -44.4 — the position update happens before the
velocity update, refuting the claimed order. -/
theorem physics_order_cex :
    airborneState.player.isJumping = true ∧
    (physicsStep airborneState).player.y = -45 ∧
    (physicsStep airborneState).player.y ≠
      airborneState.player.y + (airborneState.player.vy + GRAVITY) := by
  norm_num [physicsStep, airborneState, crashState, GRAVITY]

/-- C5 (corrected): for an airborne player the physics step first updates
the position with the pre-update velocity (`y += vy`) and then the
velocity (`vy += GRAVITY`); if the updated offset has crossed back to ≥ 0
it is clamped to exactly 0 and the airborne flag is cleared, otherwise the
offset is exactly y + vy and the flag stays set. -/
theorem physics_integration_order (s : GameSt) (h : s.player.isJumping = true) :
    (physicsStep s).player.vy = s.player.vy + GRAVITY ∧
    (s.player.y + s.player.vy < 0 →
      (physicsStep s).player.y = s.player.y + s.player.vy ∧
      (physicsStep s).player.isJumping = true) ∧
    (s.player.y + s.player.vy ≥ 0 →
      (physicsStep s).player.y = 0 ∧
      (physicsStep s).player.isJumping = false) := by
  unfold physicsStep
  rw [if_pos h]
  by_cases hy : s.player.y + s.player.vy ≥ 0
  · rw [if_pos hy]
    refine ⟨rfl, ?_, fun _ => ⟨rfl, rfl⟩⟩
    intro hlt
    exfalso
    exact absurd hy (not_le.mpr hlt)
  · rw [if_neg hy]
    refine ⟨rfl, fun _ => ⟨rfl, h⟩, ?_⟩
    intro hge
    exact absurd hge hy

/-- Witness for C5's amended theorem at the concrete airborne state. -/
theorem physics_integration_order_w :
    (physicsStep airborneState).player.vy = airborneState.player.vy + GRAVITY ∧
    (physicsStep airborneState).player.y =
      airborneState.player.y + airborneState.player.vy := by
  obtain ⟨h1, h2, h3⟩ := physics_integration_order airborneState rfl
  exact ⟨h1, (h2 (by norm_num [airborneState, crashState])).1⟩

/-- C9 (confirmed): in every reachable state, the lane of the player, of
every pooled obstacle and of every pooled pickup lies in
[0, LANE_COUNT-1]; the proof checks that bounded left/right input (ignored
at the boundary lanes) and spawning (lanes drawn from {0,1,2} and
(lane+1) mod 3) preserve the invariant. -/
theorem lanes_in_bounds (s : GameSt) (h : Reachable s) : lanesOK s := by
  induction h with
  | reset => exact lanesOK_reset
  | start s hs hp ih => exact ih
  | key s k hs ih => exact lanesOK_key k s ih
  | step s env hs ih => exact lanesOK_tick env s ih

/-- Witness for C9 at the reset state. -/
theorem lanes_in_bounds_w : lanesOK resetState :=
  lanes_in_bounds resetState Reachable.reset

end RunnerGame
